import Mathlib

/-!
Verification development for the newport portfolio repository.

The JavaScript sources are shallowly embedded in Lean:
- JavaScript numbers are modelled as rationals; Math.floor and Math.round
  become Int.floor and the floor of x + 1/2 (JS rounds halves toward +inf).
- Math.random is modelled as an explicit stream g : Nat -> Rat of values,
  together with the validity predicate 0 <= g n < 1; every call site of
  Math.random in the source consumes one stream position, in source order.
- Math.sin / Math.cos are passed as abstract function parameters where the
  claims do not depend on their values.
- requestAnimationFrame / cancelAnimationFrame and event listeners are
  modelled by an explicit scheduler record (pending callback ids, attached
  listener names), mutated exactly where the source calls them.
-/

/-- JavaScript Math.round semantics on rationals: halves round toward positive
infinity, so Math.round x = floor (x + 1/2). -/
def jsRound (q : ℚ) : ℤ := ⌊q + 1 / 2⌋

/-- The IEEE-754 double value of JavaScript Math.PI, as an exact rational. -/
def piJS : ℚ := 884279719003555 / 281474976710656

/-- Validity of a Math.random stream: every drawn value lies in [0, 1). -/
def validRand (g : ℕ → ℚ) : Prop := ∀ n, 0 ≤ g n ∧ g n < 1

/-- The all-zeros Math.random stream, used to instantiate witnesses. -/
def zeroRand : ℕ → ℚ := fun _ => 0

/-- JS helper rand(min, max) = Math.random() * (max - min) + min from
particle.jsx, reading stream position k. -/
def randIn (g : ℕ → ℚ) (k : ℕ) (lo hi : ℚ) : ℚ := g k * (hi - lo) + lo

/-- The two sequential wrap if-statements shared by StarsBg.draw and
MetaballsBg.animate, for one axis: a position below -margin snaps to
limit + margin, then a position above limit + margin snaps to -margin. -/
def wrapSnap (limit margin x1 : ℚ) : ℚ :=
  let x2 := if x1 < -margin then limit + margin else x1
  if x2 > limit + margin then -margin else x2

/-- The starfield variant of the wrap that also rewrites the base coordinate
(s.baseX = s.x inside each wrap branch): returns (new x, new baseX). -/
def wrapSnapPair (limit margin x1 bx : ℚ) : ℚ × ℚ :=
  let p2 := if x1 < -margin then (limit + margin, limit + margin) else (x1, bx)
  if p2.1 > limit + margin then (-margin, -margin) else p2

/-- JavaScript String.prototype.trim: drop whitespace from both ends. -/
def jsTrim (s : String) : String :=
  ⟨((s.data.dropWhile Char.isWhitespace).reverse.dropWhile Char.isWhitespace).reverse⟩

namespace Contact

/-- The React form state of Contact.jsx: { name, email, subject, message, honey }. -/
structure Form where
  name : String
  email : String
  subject : String
  message : String
  honey : String
deriving DecidableEq

/-- The error object built by Contact.validate; a key is present (some) exactly
when the corresponding if in the source assigns it. -/
structure FieldErrors where
  name : Option String
  email : Option String
  message : Option String
  honey : Option String
deriving DecidableEq

/-- Character class [^\s@] of the email regular expression in Contact.validate:
any character that is neither an at-sign nor whitespace. -/
def tchar (c : Char) : Bool := !(c = '@') && !c.isWhitespace

/-- Whether the character list has a dot at an interior position (neither
first nor last); this captures the backtracking of the [^\s@]+\.[^\s@]+ part
of the email pattern over the domain, since a dot itself matches [^\s@]. -/
def interiorDot (d : List Char) : Bool := ((d.drop 1).dropLast).contains '.'

/-- Matching of the anchored email regular expression of Contact.validate
against a whole string: one at-sign splitting the string into a non-empty
local part and a domain, no whitespace anywhere, and a dot strictly inside
the domain. -/
def emailOk (s : String) : Bool :=
  match s.data.splitOn '@' with
  | [a, d] => !a.isEmpty && a.all tchar && d.all tchar && interiorDot d
  | _ => false

/-- Contact.validate from Contact.jsx. jsTrim models the JS trim; the JS
falsy test on a string is the test against the empty string. -/
def validate (values : Form) : FieldErrors :=
  { name := if jsTrim values.name = "" then some "Please enter your name" else none
    email :=
      if jsTrim values.email = "" then some "Please enter your email"
      else if !emailOk (jsTrim values.email) then some "Please enter a valid email"
      else none
    message :=
      if jsTrim values.message = "" ∨ (jsTrim values.message).length < 8 then
        some "Message must be at least 8 characters"
      else none
    honey := if values.honey ≠ "" then some "Spam detected" else none }

/-- Object.keys(errs).length truthiness in handleSubmit: some error key is set. -/
def hasErrors (e : FieldErrors) : Bool :=
  e.name.isSome || e.email.isSome || e.message.isSome || e.honey.isSome

/-- Object.values(errs).find(Boolean): the first error message in the key
insertion order of validate (name, email, message, honey). -/
def firstError (e : FieldErrors) : Option String :=
  (e.name.orElse fun _ => (e.email.orElse fun _ => (e.message.orElse fun _ => e.honey)))

/-- The JSON body sent by handleSubmit: { name, email, subject, message }. -/
structure Payload where
  name : String
  email : String
  subject : String
  message : String
deriving DecidableEq

/-- Outcome of the synchronous part of handleSubmit before any network I/O:
either submission is blocked with the validation errors and the status text,
or a POST with the given payload is issued. -/
inductive SubmitAction where
  | blocked (errs : FieldErrors) (statusText : String)
  | post (payload : Payload)
deriving DecidableEq

/-- The pre-network phase of Contact.handleSubmit: validate, and if any error
key is set, surface the first message and return before fetch; otherwise build
the payload from exactly the four visible fields and POST it. -/
def submitStep (form : Form) : SubmitAction :=
  let errs := validate form
  if hasErrors errs then .blocked errs ((firstError errs).getD "Validation error")
  else .post { name := form.name, email := form.email,
               subject := form.subject, message := form.message }

end Contact

namespace MetaballsBg

/-- Props of the MetaballsBg component in Contact.jsx that feed the quality
reduction and seeding (defaults: count 6, color as parsed triple, minR 64,
maxR 180, speed 0.14, blur 28, autoReduce false). -/
structure Config where
  count : ℕ
  blur : ℚ
  speed : ℚ
  autoReduce : Bool
  minR : ℚ
  maxR : ℚ

/-- The browser facts read by the useMemo quality reduction: whether window
exists, navigator.deviceMemory (0 when absent), navigator.hardwareConcurrency
(0 when absent) and the prefers-reduced-motion media query. -/
structure Device where
  windowExists : Bool
  deviceMemory : ℚ
  hardwareConcurrency : ℕ
  prefersReduced : Bool

/-- Result of the useMemo in MetaballsBg: { countToUse, blurToUse, speedToUse }. -/
structure Effective where
  countToUse : ℕ
  blurToUse : ℚ
  speedToUse : ℚ

/-- The useMemo body of MetaballsBg: optionally reduce count, blur and speed
for prefers-reduced-motion or low-end devices. The source tests dm and hc
for JS truthiness (non-zero) before comparing with 2. -/
def effective (cfg : Config) (d : Device) : Effective :=
  if cfg.autoReduce && d.windowExists then
    if d.prefersReduced then
      { countToUse := (max 2 ⌊(cfg.count : ℚ) * 0.35⌋).toNat
        blurToUse := max 6 (⌊cfg.blur * 0.45⌋ : ℚ)
        speedToUse := max 0.25 (cfg.speed * 0.5) }
    else if (d.deviceMemory ≠ 0 ∧ d.deviceMemory ≤ 2) ∨
        (d.hardwareConcurrency ≠ 0 ∧ d.hardwareConcurrency ≤ 2) then
      { countToUse := (max 2 ⌊(cfg.count : ℚ) * 0.5⌋).toNat
        blurToUse := max 8 (⌊cfg.blur * 0.6⌋ : ℚ)
        speedToUse := max 0.4 (cfg.speed * 0.6) }
    else
      { countToUse := cfg.count, blurToUse := cfg.blur, speedToUse := cfg.speed }
  else
    { countToUse := cfg.count, blurToUse := cfg.blur, speedToUse := cfg.speed }

/-- One blob record created by MetaballsBg.seed. -/
structure Blob where
  r : ℚ
  x : ℚ
  y : ℚ
  vx : ℚ
  vy : ℚ
  phase : ℚ
  phaseSpeed : ℚ
  drift : ℚ
  driftFactor : ℚ
deriving DecidableEq, Inhabited

/-- One element of the seed map in MetaballsBg.seed, consuming the nine
Math.random() calls of its body at stream positions k .. k+8 in source
order (baseV is the literal 0.08). -/
def mkBlob (g : ℕ → ℚ) (k : ℕ) (w h minR maxR speedToUse : ℚ) : Blob :=
  { r := (⌊g k * (maxR - minR) + minR⌋ : ℚ)
    x := g (k + 1) * w
    y := g (k + 2) * h
    vx := (g (k + 3) - 0.5) * 0.08 * speedToUse
    vy := (g (k + 4) - 0.5) * 0.08 * speedToUse * 0.6
    phase := g (k + 5) * piJS * 2
    phaseSpeed := 0.0025 + g (k + 6) * 0.0018
    drift := 0.0006 + g (k + 7) * 0.0024
    driftFactor := 0.002 + g (k + 8) * 0.004 }

/-- MetaballsBg.seed: Array.from of length countToUse, each entry drawing its
nine randoms from consecutive stream positions. -/
def seed (g : ℕ → ℚ) (cnt : ℕ) (w h minR maxR speedToUse : ℚ) : List Blob :=
  (List.range cnt).map fun i => mkBlob g (9 * i) w h minR maxR speedToUse

/-- One blob update of MetaballsBg.animate: phase advance, velocity plus
sinusoidal drift, then the two sequential wrap tests per axis using the
blob radius as margin. sinF and cosF stand for Math.sin and Math.cos. -/
def animateStep (sinF cosF : ℚ → ℚ) (w h dt : ℚ) (b : Blob) : Blob :=
  let phase := b.phase + b.phaseSpeed * (dt / 16.6667)
  let x1 := b.x + b.vx * (dt / 16.6667) + sinF phase * b.drift * w * b.driftFactor
  let y1 := b.y + b.vy * (dt / 16.6667) + cosF phase * b.drift * h * b.driftFactor
  { b with phase := phase, x := wrapSnap w b.r x1, y := wrapSnap h b.r y1 }

/-- Repeated per-frame updates of the whole blob list, one list entry per
frame holding that frame's dt value. -/
def runFrames (sinF cosF : ℚ → ℚ) (w h : ℚ) : List ℚ → List Blob → List Blob
  | [], bs => bs
  | dt :: rest, bs => runFrames sinF cosF w h rest (bs.map (animateStep sinF cosF w h dt))

end MetaballsBg

namespace StarsBg

/-- One entry of the layers array in StarsBg.buildStars. -/
structure Layer where
  name : String
  depth : ℚ
  sizeMult : ℚ
  glow : ℚ
  density : ℚ
deriving DecidableEq, Inhabited

/-- The far layer: { name: 'far', depth: 0.28, sizeMult: 0.7, glow: 0.28, density: 0.5 }. -/
def layerFar : Layer := { name := "far", depth := 0.28, sizeMult := 0.7, glow := 0.28, density := 0.5 }

/-- The mid layer: { name: 'mid', depth: 0.55, sizeMult: 1.0, glow: 0.5, density: 0.35 }. -/
def layerMid : Layer := { name := "mid", depth := 0.55, sizeMult := 1.0, glow := 0.5, density := 0.35 }

/-- The near layer: { name: 'near', depth: 0.9, sizeMult: 1.8, glow: 1.0, density: 0.15 }. -/
def layerNear : Layer := { name := "near", depth := 0.9, sizeMult := 1.8, glow := 1.0, density := 0.15 }

/-- One star record pushed by StarsBg.buildStars. The color string built by
split/map/join over the "r,g,b" base tint is modelled as the list of its
three clamped integer components. -/
structure Star where
  id : String
  x : ℚ
  y : ℚ
  baseX : ℚ
  baseY : ℚ
  r : ℚ
  depth : ℚ
  glow : ℚ
  color : List ℤ
  brightness : ℚ
  twinkleSpeed : ℚ
  twinklePhase : ℚ
  vx : ℚ
  vy : ℚ
  isBright : Bool
deriving DecidableEq, Inhabited

/-- One loop-body iteration of StarsBg.buildStars for layer index i, starting
at Math.random stream position k; returns the star and the next free stream
position. Call order follows the source: baseRadius, tintShift, brightness,
twinkleSpeed, twinklePhase, x, y, then (because of JS short-circuiting) the
cluster coin only when clusters is on, the seven cluster draws only when the
coin hits, and finally the id suffix, vx, vy and the isBright coin. -/
def mkStar (g : ℕ → ℚ) (k : ℕ) (w h : ℚ) (clusters : Bool) (colorBase : List ℚ)
    (layer : Layer) (i : ℕ) : Star × ℕ :=
  let baseRadius := randIn g k 0.35 1.9 * layer.sizeMult
  let tintShift := randIn g (k + 1) (-18) 18
  let color := (colorBase.enum).map fun p =>
    max 0 (min 255 (jsRound (p.2 + (if p.1 = 0 then tintShift else tintShift * 0.35))))
  let brightness := randIn g (k + 2) 0.6 1
  let twinkleSpeed := randIn g (k + 3) 0.45 1.6 * (if layer.depth < 0.5 then 0.85 else 1.25)
  let twinklePhase := g (k + 4) * piJS * 2
  let x0 := g (k + 5) * w
  let y0 := g (k + 6) * h
  let ck := if clusters then (decide (g (k + 7) < 0.12), k + 8) else (false, k + 7)
  let pos :=
    if ck.1 then
      let cx := g ck.2 * w
      let cy := g (ck.2 + 1) * h
      let rCluster := min w h * randIn g (ck.2 + 2) 0.04 0.14
      let xx := max 0 (min w (cx + randIn g (ck.2 + 3) (-1) 1 * rCluster * |randIn g (ck.2 + 4) (-1) 1|))
      let yy := max 0 (min h (cy + randIn g (ck.2 + 5) (-1) 1 * rCluster * |randIn g (ck.2 + 6) (-1) 1|))
      (xx, yy, ck.2 + 7)
    else (x0, y0, ck.2)
  let k9 := pos.2.2
  ({ id := layer.name ++ "-" ++ toString i ++ "-" ++ toString ⌊g k9 * 1000000⌋
     x := pos.1
     y := pos.2.1
     baseX := pos.1
     baseY := pos.2.1
     r := baseRadius
     depth := layer.depth
     glow := layer.glow
     color := color
     brightness := brightness
     twinkleSpeed := twinkleSpeed
     twinklePhase := twinklePhase
     vx := randIn g (k9 + 1) (-0.006) 0.006
     vy := randIn g (k9 + 2) (-0.006) 0.006
     isBright := decide (g (k9 + 3) < 0.02) }, k9 + 4)

/-- The inner for-loop of StarsBg.buildStars: build n stars of one layer
starting at loop index i and stream position k; returns the stars in push
order and the next free stream position. -/
def buildLoop (g : ℕ → ℚ) (w h : ℚ) (clusters : Bool) (colorBase : List ℚ)
    (layer : Layer) : ℕ → ℕ → ℕ → List Star × ℕ
  | _, k, 0 => ([], k)
  | i, k, Nat.succ m =>
    let sk := mkStar g k w h clusters colorBase layer i
    let rest := buildLoop g w h clusters colorBase layer (i + 1) sk.2 m
    (sk.1 :: rest.1, rest.2)

/-- Per-layer star count of StarsBg.buildStars: Math.max(1, Math.round(count * layer.density)). -/
def layerCount (count : ℤ) (layer : Layer) : ℕ :=
  (max 1 (jsRound ((count : ℚ) * layer.density))).toNat

/-- The capped total star count of StarsBg.buildStars: the density-derived
desired count for the area, capped at maxStars, then reduced to 45 percent
on low-end devices. -/
def starsCount (w h density : ℚ) (maxStars : ℤ) (lowEnd : Bool) : ℤ :=
  let area := max 1 (w * h)
  let desired := jsRound (area / 100000 * density)
  let cap := min maxStars desired
  if lowEnd then jsRound ((cap : ℚ) * 0.45) else cap

/-- StarsBg.buildStars: derive the target count from density per 100k px,
cap it at maxStars, apply the low-end reduction, build each layer in order
threading the Math.random stream, and sort by depth ascending. -/
def buildStars (g : ℕ → ℚ) (w h : ℚ) (density : ℚ) (maxStars : ℤ) (clusters : Bool)
    (colorBase : List ℚ) (lowEnd : Bool) : List Star :=
  let count := starsCount w h density maxStars lowEnd
  let far := buildLoop g w h clusters colorBase layerFar 0 0 (layerCount count layerFar)
  let mid := buildLoop g w h clusters colorBase layerMid 0 far.2 (layerCount count layerMid)
  let near := buildLoop g w h clusters colorBase layerNear 0 mid.2 (layerCount count layerNear)
  (far.1 ++ mid.1 ++ near.1).mergeSort fun a b => a.depth ≤ b.depth

/-- The motion part of one star in StarsBg.draw: drift by velocity times dt,
then the two sequential wrap tests per axis against the fixed 20 px margin
(updating baseX / baseY on wrap), then the twinkle phase advance. -/
def moveStar (w h dt : ℚ) (s : Star) : Star :=
  let px := wrapSnapPair w 20 (s.x + s.vx * dt) s.baseX
  let py := wrapSnapPair h 20 (s.y + s.vy * dt) s.baseY
  { s with x := px.1, baseX := px.2, y := py.1, baseY := py.2,
           twinklePhase := s.twinklePhase + s.twinkleSpeed * dt / 1000 }

/-- Repeated draw-loop position updates of the whole star list, one list
entry per frame holding that frame's (already capped) dt value. -/
def runStarFrames (w h : ℚ) : List ℚ → List Star → List Star
  | [], ss => ss
  | dt :: rest, ss => runStarFrames w h rest (ss.map (moveStar w h dt))

/-- One shooting-star record pushed by StarsBg.spawnShot. -/
structure Shot where
  x : ℚ
  y : ℚ
  vx : ℚ
  vy : ℚ
  len : ℚ
  life : ℚ
  age : ℚ
deriving DecidableEq, Inhabited

/-- StarsBg.spawnShot, consuming stream positions k .. k+5 in source order
(side coin, startY, angle, speed, length, life). -/
def spawnShot (g : ℕ → ℚ) (k : ℕ) (sinF cosF : ℚ → ℚ) (w h : ℚ) : Shot :=
  let fromLeft := decide (g k < 0.5)
  let startX := if fromLeft then (-60 : ℚ) else w + 60
  let startY := g (k + 1) * h * 0.55
  let angle := if fromLeft then randIn g (k + 2) 0.2 0.35 * piJS else randIn g (k + 2) 0.65 0.8 * piJS
  let speed := randIn g (k + 3) 700 1300 / 1000
  { x := startX, y := startY, vx := cosF angle * speed, vy := sinF angle * speed,
    len := randIn g (k + 4) 180 420, life := randIn g (k + 5) 420 1000, age := 0 }

/-- The shooting-star pass of StarsBg.draw: age each shot by dt, remove shots
past their lifetime (reverse splice preserves the order of survivors), and
advance the survivors by velocity times dt. -/
def updateShots (dt : ℚ) (shots : List Shot) : List Shot :=
  shots.filterMap fun p =>
    let age := p.age + dt
    if age > p.life then none
    else some { p with age := age, x := p.x + p.vx * dt, y := p.y + p.vy * dt }

/-- StarsBg.maybeSpawnShot as written in the source. Note that nothing in the
component ever calls this function: it is defined after the draw loop and has
no call site, so it is dead code. -/
def maybeSpawnShot (g : ℕ → ℚ) (k : ℕ) (sinF cosF : ℚ → ℚ) (now lastTime : ℚ)
    (shootingFrequency w h : ℚ) (shots : List Shot) : List Shot :=
  let dt := min 1000 (now - lastTime)
  if shootingFrequency > 0 ∧ g k < dt / (shootingFrequency * 1000) then
    shots ++ [spawnShot g (k + 1) sinF cosF w h]
  else shots

end StarsBg

/-- Browser frame scheduler as seen by one effect: the ids of this effect's
pending requestAnimationFrame callbacks and the next fresh id. -/
structure Sched where
  pending : List ℕ
  nextId : ℕ
deriving DecidableEq

/-- requestAnimationFrame: append a fresh callback id and return it. -/
def reqFrame (s : Sched) : Sched × ℕ :=
  ({ pending := s.pending ++ [s.nextId], nextId := s.nextId + 1 }, s.nextId)

/-- cancelAnimationFrame: drop the callback with the given id, if pending. -/
def cancelFrame (s : Sched) (id : ℕ) : Sched :=
  { s with pending := s.pending.erase id }

namespace StarsBg

/-- The props of StarsBg that the effect body reads (colorBase pre-parsed as
its numeric components, lowEnd standing for the hardwareConcurrency check). -/
structure Props where
  colorBase : List ℚ
  density : ℚ
  maxStars : ℤ
  clusters : Bool
  shootingFrequency : ℚ
  lowEnd : Bool

/-- The mounted StarsBg effect: its scheduler view, the listener names it has
attached, the ref cells (rafRef, dims, stars, shots, hiddenRef, lastTimeRef). -/
structure Sim where
  sched : Sched
  listeners : List String
  rafId : ℕ
  w : ℚ
  h : ℚ
  stars : List Star
  shots : List Shot
  hidden : Bool
  lastTime : ℚ

/-- The five addEventListener calls of the StarsBg effect, in source order. -/
def starsListeners : List String :=
  ["resize", "scroll", "mousemove", "touchmove", "visibilitychange"]

/-- StarsBg.resize applied to a simulation: clamp the measured rect to at
least 1 px per axis, rebuild the stars and clear the shots. -/
def resizeSim (P : Props) (g : ℕ → ℚ) (rectW rectH : ℚ) (s : Sim) : Sim :=
  let w := max 1 (⌊rectW⌋ : ℚ)
  let h := max 1 (⌊rectH⌋ : ℚ)
  { s with w := w, h := h,
           stars := buildStars g w h P.density P.maxStars P.clusters P.colorBase P.lowEnd,
           shots := [] }

/-- Mounting the StarsBg effect: resize() (which seeds the stars), record the
start time, schedule the first frame, and attach the five listeners. -/
def mount (P : Props) (g : ℕ → ℚ) (rectW rectH t0 : ℚ) : Sim :=
  let w := max 1 (⌊rectW⌋ : ℚ)
  let h := max 1 (⌊rectH⌋ : ℚ)
  let rf := reqFrame { pending := [], nextId := 0 }
  { sched := rf.1, listeners := starsListeners, rafId := rf.2, w := w, h := h,
    stars := buildStars g w h P.density P.maxStars P.clusters P.colorBase P.lowEnd,
    shots := [], hidden := false, lastTime := t0 }

/-- Firing the frame callback at time now: a pending callback runs only if its
id is still scheduled; it caps dt at 40, stores the time, returns early (but
reschedules) while hidden, otherwise updates stars and shots and reschedules. -/
def fireFrame (now : ℚ) (s : Sim) : Sim :=
  if s.rafId ∈ s.sched.pending then
    let sch0 := cancelFrame s.sched s.rafId
    let dt := min 40 (now - s.lastTime)
    if s.hidden then
      let rf := reqFrame sch0
      { s with sched := rf.1, rafId := rf.2, lastTime := now }
    else
      let rf := reqFrame sch0
      { s with sched := rf.1, rafId := rf.2, lastTime := now,
               stars := s.stars.map (moveStar s.w s.h dt),
               shots := updateShots dt s.shots }
  else s

/-- The visibilitychange listener of StarsBg: store document.hidden. -/
def visibilitySim (hidden : Bool) (s : Sim) : Sim := { s with hidden := hidden }

/-- Events that can reach the mounted StarsBg effect. -/
inductive Op where
  | frame (now : ℚ)
  | resizeEv (g : ℕ → ℚ) (rectW rectH : ℚ)
  | visibilityEv (hidden : Bool)

/-- Dispatch of one event on the StarsBg simulation. -/
def applyOp (P : Props) (s : Sim) : Op → Sim
  | .frame now => fireFrame now s
  | .resizeEv g rectW rectH => resizeSim P g rectW rectH s
  | .visibilityEv hidden => visibilitySim hidden s

/-- A whole run: dispatch a list of events in order. -/
def runOps (P : Props) (ops : List Op) (s : Sim) : Sim := ops.foldl (applyOp P) s

/-- The StarsBg effect cleanup: cancelAnimationFrame(rafRef.current) and the
five removeEventListener calls, in source order. -/
def cleanup (s : Sim) : Sim :=
  { s with sched := cancelFrame s.sched s.rafId,
           listeners := ((((s.listeners.erase "resize").erase "scroll").erase
             "mousemove").erase "touchmove").erase "visibilitychange" }

end StarsBg

namespace MetaballsBg

/-- The mounted MetaballsBg effect: scheduler view, the visibilitychange
listener, the ResizeObserver connection, and the ref cells (rafRef, sizeRef,
blobsRef, lastTimeRef) plus the document visibility the frame callback reads. -/
structure Sim where
  sched : Sched
  listeners : List String
  observerConnected : Bool
  rafId : ℕ
  w : ℚ
  h : ℚ
  blobs : List Blob
  lastTime : Option ℚ
  docHidden : Bool

/-- MetaballsBg.seed applied to a simulation: measure the container (clamped
to at least 1 px), and rebuild exactly countToUse blobs. -/
def seedSim (cfg : Config) (eff : Effective) (g : ℕ → ℚ) (boxW boxH : ℚ) (s : Sim) : Sim :=
  let w := max 1 boxW
  let h := max 1 boxH
  { s with w := w, h := h, blobs := seed g eff.countToUse w h cfg.minR cfg.maxR eff.speedToUse }

/-- Mounting the MetaballsBg effect: seed(), schedule the first frame, connect
the ResizeObserver and attach the visibilitychange listener. lastTimeRef
starts null. -/
def mount (cfg : Config) (eff : Effective) (g : ℕ → ℚ) (boxW boxH : ℚ) (docHidden : Bool) : Sim :=
  let w := max 1 boxW
  let h := max 1 boxH
  let rf := reqFrame { pending := [], nextId := 0 }
  { sched := rf.1, listeners := ["visibilitychange"], observerConnected := true,
    rafId := rf.2, w := w, h := h,
    blobs := seed g eff.countToUse w h cfg.minR cfg.maxR eff.speedToUse,
    lastTime := none, docHidden := docHidden }

/-- Firing the MetaballsBg animate callback at time ts: while the document is
hidden it only reschedules and stores ts; otherwise dt = max(1, ts - last)
with a null last treated as ts, every blob advances, and it reschedules. -/
def fireFrame (sinF cosF : ℚ → ℚ) (ts : ℚ) (s : Sim) : Sim :=
  if s.rafId ∈ s.sched.pending then
    let sch0 := cancelFrame s.sched s.rafId
    if s.docHidden then
      let rf := reqFrame sch0
      { s with sched := rf.1, rafId := rf.2, lastTime := some ts }
    else
      let last := s.lastTime.getD ts
      let dt := max 1 (ts - last)
      let rf := reqFrame sch0
      { s with sched := rf.1, rafId := rf.2, lastTime := some ts,
               blobs := s.blobs.map (animateStep sinF cosF s.w s.h dt) }
  else s

/-- A visibility change: the handleVisibility listener resets the time-delta
baseline (lastTimeRef = null) when the tab becomes visible again. -/
def visibilitySim (hidden : Bool) (s : Sim) : Sim :=
  { s with docHidden := hidden, lastTime := if hidden then s.lastTime else none }

/-- Events that can reach the mounted MetaballsBg effect. -/
inductive Op where
  | frame (sinF cosF : ℚ → ℚ) (ts : ℚ)
  | resizeObserved (g : ℕ → ℚ) (boxW boxH : ℚ)
  | visibilityEv (hidden : Bool)

/-- Dispatch of one event on the MetaballsBg simulation. -/
def applyOp (cfg : Config) (eff : Effective) (s : Sim) : Op → Sim
  | .frame sinF cosF ts => fireFrame sinF cosF ts s
  | .resizeObserved g boxW boxH => seedSim cfg eff g boxW boxH s
  | .visibilityEv hidden => visibilitySim hidden s

/-- A whole run: dispatch a list of events in order. -/
def runOps (cfg : Config) (eff : Effective) (ops : List Op) (s : Sim) : Sim :=
  ops.foldl (applyOp cfg eff) s

/-- The MetaballsBg effect cleanup: cancelAnimationFrame(rafRef.current),
ResizeObserver.disconnect(), and removeEventListener for visibilitychange. -/
def cleanup (s : Sim) : Sim :=
  { s with sched := cancelFrame s.sched s.rafId,
           observerConnected := false,
           listeners := s.listeners.erase "visibilitychange" }

end MetaballsBg

namespace DThreeLoader

/-- Observable outcome of mounting the DThreeLoader component: what the
container holds (the statically rendered fallback SVG, or the renderer canvas
that initThree swaps in after clearing innerHTML), how many frame callbacks
were scheduled, whether initThree ran, and how many shape-sampled targets
were produced (the finalTargets loop pushes exactly effectiveCount entries). -/
structure View where
  children : List String
  rafCount : ℕ
  initThreeStarted : Bool
  sampledTargets : ℕ
deriving DecidableEq

/-- The effectiveCount computed at mount:
Math.max(64, Math.round(particleCount * (isMobile ? 0.45 : 1))). -/
def effectiveCount (particleCount : ℚ) (isMobile : Bool) : ℤ :=
  max 64 (jsRound (particleCount * (if isMobile then 0.45 else 1)))

/-- Mounting DThreeLoader: the effect initializes Three.js only under
typeof window !== 'undefined' && !prefersReduced; otherwise the static
fallback SVG stays in the DOM and no frame callback is ever scheduled. -/
def mount (windowExists prefersReduced isMobile : Bool) (particleCount : ℚ) : View :=
  if windowExists && !prefersReduced then
    { children := ["renderer-canvas"], rafCount := 1, initThreeStarted := true,
      sampledTargets := (effectiveCount particleCount isMobile).toNat }
  else
    { children := ["fallback-svg"], rafCount := 0, initThreeStarted := false,
      sampledTargets := 0 }

end DThreeLoader

namespace ConstellationOverlay

/-- State of the MutationObserver coalescing in ConstellationOverlay: the
rebuildScheduled ref, the number of queued requestAnimationFrame callbacks,
and the number of rebuild() executions so far. -/
structure CoalesceState where
  rebuildScheduled : Bool
  pendingCallbacks : ℕ
  rebuilds : ℕ
deriving DecidableEq

/-- The state before any mutation fires. -/
def coalesceInit : CoalesceState :=
  { rebuildScheduled := false, pendingCallbacks := 0, rebuilds := 0 }

/-- The MutationObserver callback: return immediately when a rebuild is
already scheduled, otherwise set the flag and queue one frame callback. -/
def onMutation (s : CoalesceState) : CoalesceState :=
  if s.rebuildScheduled then s
  else { s with rebuildScheduled := true, pendingCallbacks := s.pendingCallbacks + 1 }

/-- The next animation-frame boundary: every queued callback runs, clearing
the flag and executing one rebuild each. -/
def frameBoundary (s : CoalesceState) : CoalesceState :=
  { rebuildScheduled := if s.pendingCallbacks > 0 then false else s.rebuildScheduled,
    pendingCallbacks := 0,
    rebuilds := s.rebuilds + s.pendingCallbacks }

end ConstellationOverlay

/-- Modelled from the spec: the exact modulo wrap onto the band [lo, hi) that
section 4.1 demands for the starfield (out-of-bounds positions wrap to the
opposite edge preserving the overshoot). Used only to compare the source's
wrap against the spec's words. -/
def specModuloWrap (lo hi x : ℚ) : ℚ :=
  lo + ((x - lo) - (hi - lo) * ⌊(x - lo) / (hi - lo)⌋)

/-- The band a metaball blob must stay in (one own radius around the
container), together with non-negativity of its radius. -/
def MetaballsBg.blobOk (w h : ℚ) (b : MetaballsBg.Blob) : Prop :=
  0 ≤ b.r ∧ -b.r ≤ b.x ∧ b.x ≤ w + b.r ∧ -b.r ≤ b.y ∧ b.y ≤ h + b.r

/-- The band a star of the starfield actually stays in: the fixed 20 px
margin around the canvas used by the wrap in StarsBg.draw. -/
def StarsBg.starInBand (w h : ℚ) (s : StarsBg.Star) : Prop :=
  -20 ≤ s.x ∧ s.x ≤ w + 20 ∧ -20 ≤ s.y ∧ s.y ≤ h + 20

/-- Scheduler/listener invariant of the mounted StarsBg effect: exactly the
one frame callback stored in rafRef is pending, and exactly the five
registered listeners are attached. -/
def StarsBg.simOk (s : StarsBg.Sim) : Prop :=
  s.sched.pending = [s.rafId] ∧ s.listeners = StarsBg.starsListeners

/-- Scheduler/listener invariant of the mounted MetaballsBg effect. -/
def MetaballsBg.simOk (s : MetaballsBg.Sim) : Prop :=
  s.sched.pending = [s.rafId] ∧ s.listeners = ["visibilitychange"]

/-- The default colorBase prop of StarsBg, the string "255,200,170" parsed
into its components. -/
def starColorBase : List ℚ := [255, 200, 170]

/-- A concrete near-layer star as StarsBg.buildStars can seed it (all values
within the seeding ranges, cf. mkStar and cornerStar_seedable): it starts at
the canvas corner with the extreme leftward and upward drift velocity. -/
def cornerStar : StarsBg.Star :=
  { id := "near-0-0", x := 0, y := 0, baseX := 0, baseY := 0, r := 0.63,
    depth := 0.9, glow := 1, color := [237, 194, 164], brightness := 0.6,
    twinkleSpeed := 0.5625, twinklePhase := 0, vx := -0.006, vy := -0.006,
    isBright := true }

/-- A star sitting 0.1 px inside the right wrap boundary of a 100 px wide
canvas, drifting right at the extreme velocity. -/
def starSnapA : StarsBg.Star := { cornerStar with x := 119.9, vx := 0.006 }

/-- Like starSnapA but 0.2 px inside the boundary, so its overshoot after one
40 ms frame differs from starSnapA's. -/
def starSnapB : StarsBg.Star := { cornerStar with x := 119.8, vx := 0.006 }

/-- A metaball configuration with count 6 and autoReduce on (all other
tunables at their defaults). -/
def cfgReducedEx : MetaballsBg.Config :=
  { count := 6, blur := 28, speed := 0.14, autoReduce := true, minR := 64, maxR := 180 }

/-- A device reporting prefers-reduced-motion, ample memory and cores. -/
def devReducedEx : MetaballsBg.Device :=
  { windowExists := true, deviceMemory := 8, hardwareConcurrency := 8, prefersReduced := true }

/-- The default metaball configuration with autoReduce off. -/
def cfgPlain : MetaballsBg.Config :=
  { count := 6, blur := 28, speed := 0.14, autoReduce := false, minR := 64, maxR := 180 }

/-- An unremarkable device. -/
def devPlain : MetaballsBg.Device :=
  { windowExists := true, deviceMemory := 8, hardwareConcurrency := 8, prefersReduced := false }

/-- A contact form whose hidden honeypot field was filled in. -/
def formSpam : Contact.Form :=
  { name := "Alice", email := "alice@mail.com", subject := "Hi",
    message := "A long enough message", honey := "bot-filled" }

/-- A well-formed contact form with an empty honeypot. -/
def formClean : Contact.Form :=
  { name := "Alice", email := "alice@mail.com", subject := "Hi",
    message := "A long enough message", honey := "" }

/-- The payload handleSubmit builds for formClean. -/
def payloadClean : Contact.Payload :=
  { name := "Alice", email := "alice@mail.com", subject := "Hi",
    message := "A long enough message" }

/-! Helper lemmas. -/

/-- The all-zeros stream is a valid Math.random stream. -/
theorem zeroRand_valid : validRand zeroRand :=
  fun _ => ⟨le_refl 0, by norm_num [zeroRand]⟩

/-- Evaluation rule for the JS rounding: jsRound q = n once n <= q + 1/2 < n + 1. -/
theorem jsRound_eq (q : ℚ) (n : ℤ) (h1 : (n : ℚ) ≤ q + 1 / 2) (h2 : q + 1 / 2 < (n : ℚ) + 1) :
    jsRound q = n := by
  rw [jsRound]
  exact Int.floor_eq_iff.2 ⟨h1, by exact_mod_cast h2⟩

/-- Whatever the incoming position, the two sequential wrap tests leave the
result inside the band [-margin, limit + margin]. -/
theorem wrapSnap_bounds (limit margin x1 : ℚ) (hl : 0 ≤ limit) (hm : 0 ≤ margin) :
    -margin ≤ wrapSnap limit margin x1 ∧ wrapSnap limit margin x1 ≤ limit + margin := by
  simp only [wrapSnap]
  split_ifs <;> constructor <;> linarith

/-- The position component of the starfield wrap agrees with the plain wrap. -/
theorem wrapSnapPair_fst (limit margin x1 bx : ℚ) :
    (wrapSnapPair limit margin x1 bx).1 = wrapSnap limit margin x1 := by
  simp only [wrapSnapPair, wrapSnap]
  split_ifs <;> simp_all

/-- A position already inside the band is left untouched by the wrap. -/
theorem wrapSnap_id (limit margin x1 : ℚ) (h1 : ¬x1 < -margin) (h2 : ¬x1 > limit + margin) :
    wrapSnap limit margin x1 = x1 := by
  simp [wrapSnap, h1, h2]

namespace MetaballsBg

/-- One animate step does not change a blob's radius. -/
theorem animateStep_r (sinF cosF : ℚ → ℚ) (w h dt : ℚ) (b : Blob) :
    (animateStep sinF cosF w h dt b).r = b.r := rfl

/-- After one animate step, any blob with a non-negative radius lies in the
one-radius band around the container, whatever its previous position. -/
theorem animateStep_ok (sinF cosF : ℚ → ℚ) (w h dt : ℚ) (b : Blob)
    (hw : 0 ≤ w) (hh : 0 ≤ h) (hr : 0 ≤ b.r) :
    blobOk w h (animateStep sinF cosF w h dt b) := by
  have hx := wrapSnap_bounds w b.r
    (b.x + b.vx * (dt / 16.6667) +
      sinF (b.phase + b.phaseSpeed * (dt / 16.6667)) * b.drift * w * b.driftFactor) hw hr
  have hy := wrapSnap_bounds h b.r
    (b.y + b.vy * (dt / 16.6667) +
      cosF (b.phase + b.phaseSpeed * (dt / 16.6667)) * b.drift * h * b.driftFactor) hh hr
  exact ⟨hr, hx.1, hx.2, hy.1, hy.2⟩

/-- Running any number of frames preserves the blob band invariant. -/
theorem runFrames_ok (sinF cosF : ℚ → ℚ) (w h : ℚ) (hw : 0 ≤ w) (hh : 0 ≤ h) :
    ∀ (dts : List ℚ) (bs : List Blob), (∀ b ∈ bs, blobOk w h b) →
      ∀ b ∈ runFrames sinF cosF w h dts bs, blobOk w h b := by
  intro dts
  induction dts with
  | nil => intro bs hbs; simpa [runFrames] using hbs
  | cons dt rest ih =>
    intro bs hbs
    simp only [runFrames]
    apply ih
    intro b hb
    rcases List.mem_map.1 hb with ⟨b0, hb0, rfl⟩
    exact animateStep_ok sinF cosF w h dt b0 hw hh (hbs b0 hb0).1

/-- A freshly seeded blob has a non-negative radius and starts inside the
container, hence inside the band. -/
theorem mkBlob_ok (g : ℕ → ℚ) (k : ℕ) (w h minR maxR sp : ℚ) (hg : validRand g)
    (hw : 0 ≤ w) (hh : 0 ≤ h) (hm : 0 ≤ minR) (hmm : minR ≤ maxR) :
    blobOk w h (mkBlob g k w h minR maxR sp) := by
  obtain ⟨h0, h1⟩ := hg k
  obtain ⟨hx0, hx1⟩ := hg (k + 1)
  obtain ⟨hy0, hy1⟩ := hg (k + 2)
  have hr : (0 : ℚ) ≤ (⌊g k * (maxR - minR) + minR⌋ : ℤ) := by
    have : (0 : ℚ) ≤ g k * (maxR - minR) + minR := by
      have := mul_nonneg h0 (by linarith : (0 : ℚ) ≤ maxR - minR)
      linarith
    exact_mod_cast Int.floor_nonneg.2 this
  have hxw : g (k + 1) * w ≤ w := mul_le_of_le_one_left hw (le_of_lt hx1)
  have hyh : g (k + 2) * h ≤ h := mul_le_of_le_one_left hh (le_of_lt hy1)
  have hxnn : 0 ≤ g (k + 1) * w := mul_nonneg hx0 hw
  have hynn : 0 ≤ g (k + 2) * h := mul_nonneg hy0 hh
  refine ⟨hr, ?_, ?_, ?_, ?_⟩ <;> simp only [mkBlob] <;> linarith

/-- Every blob of a fresh seed satisfies the band invariant. -/
theorem seed_ok (g : ℕ → ℚ) (cnt : ℕ) (w h minR maxR sp : ℚ) (hg : validRand g)
    (hw : 0 ≤ w) (hh : 0 ≤ h) (hm : 0 ≤ minR) (hmm : minR ≤ maxR) :
    ∀ b ∈ seed g cnt w h minR maxR sp, blobOk w h b := by
  intro b hb
  rcases List.mem_map.1 hb with ⟨i, _, rfl⟩
  exact mkBlob_ok g (9 * i) w h minR maxR sp hg hw hh hm hmm

/-- MetaballsBg.seed always produces exactly as many blobs as asked. -/
theorem seed_length (g : ℕ → ℚ) (cnt : ℕ) (w h minR maxR sp : ℚ) :
    (seed g cnt w h minR maxR sp).length = cnt := by
  simp [seed]

end MetaballsBg

namespace StarsBg

/-- One draw-loop move keeps any star inside the fixed 20 px band, whatever
its previous position. -/
theorem moveStar_inBand (w h dt : ℚ) (s : Star) (hw : 0 ≤ w) (hh : 0 ≤ h) :
    starInBand w h (moveStar w h dt s) := by
  have hx := wrapSnap_bounds w 20 (s.x + s.vx * dt) hw (by norm_num)
  have hy := wrapSnap_bounds h 20 (s.y + s.vy * dt) hh (by norm_num)
  have ex : (moveStar w h dt s).x = wrapSnap w 20 (s.x + s.vx * dt) := by
    simp only [moveStar, wrapSnapPair_fst]
  have ey : (moveStar w h dt s).y = wrapSnap h 20 (s.y + s.vy * dt) := by
    simp only [moveStar, wrapSnapPair_fst]
  exact ⟨ex ▸ hx.1, ex ▸ hx.2, ey ▸ hy.1, ey ▸ hy.2⟩

/-- One draw-loop move does not change a star's radius. -/
theorem moveStar_r (w h dt : ℚ) (s : Star) : (moveStar w h dt s).r = s.r := rfl

/-- The x update of one draw-loop move, through the wrap. -/
theorem moveStar_x (w h dt : ℚ) (s : Star) :
    (moveStar w h dt s).x = wrapSnap w 20 (s.x + s.vx * dt) := by
  simp only [moveStar, wrapSnapPair_fst]

/-- The y update of one draw-loop move, through the wrap. -/
theorem moveStar_y (w h dt : ℚ) (s : Star) :
    (moveStar w h dt s).y = wrapSnap h 20 (s.y + s.vy * dt) := by
  simp only [moveStar, wrapSnapPair_fst]

/-- One draw-loop move does not change a star's velocity. -/
theorem moveStar_vx (w h dt : ℚ) (s : Star) : (moveStar w h dt s).vx = s.vx := rfl

/-- Iterated draw-loop moves do not change a star's velocity. -/
theorem iterate_vx (w h dt : ℚ) (s : Star) : ∀ n, ((moveStar w h dt)^[n] s).vx = s.vx := by
  intro n
  induction n with
  | zero => rfl
  | succ m ih => rw [Function.iterate_succ_apply', moveStar_vx, ih]

/-- Running any number of draw frames keeps every star inside the band,
provided the stars start inside it. -/
theorem runStarFrames_inBand (w h : ℚ) (hw : 0 ≤ w) (hh : 0 ≤ h) :
    ∀ (dts : List ℚ) (ss : List Star), (∀ s ∈ ss, starInBand w h s) →
      ∀ s ∈ runStarFrames w h dts ss, starInBand w h s := by
  intro dts
  induction dts with
  | nil => intro ss hss; simpa [runStarFrames] using hss
  | cons dt rest ih =>
    intro ss hss
    simp only [runStarFrames]
    apply ih
    intro s hs
    rcases List.mem_map.1 hs with ⟨s0, _, rfl⟩
    exact moveStar_inBand w h dt s0 hw hh

/-- A star built by the seeding loop starts inside the canvas. -/
theorem mkStar_pos (g : ℕ → ℚ) (k : ℕ) (w h : ℚ) (clusters : Bool) (colorBase : List ℚ)
    (layer : Layer) (i : ℕ) (hg : validRand g) (hw : 0 ≤ w) (hh : 0 ≤ h) :
    0 ≤ (mkStar g k w h clusters colorBase layer i).1.x ∧
      (mkStar g k w h clusters colorBase layer i).1.x ≤ w ∧
      0 ≤ (mkStar g k w h clusters colorBase layer i).1.y ∧
      (mkStar g k w h clusters colorBase layer i).1.y ≤ h := by
  obtain ⟨hx0, hx1⟩ := hg (k + 5)
  obtain ⟨hy0, hy1⟩ := hg (k + 6)
  have hxw : g (k + 5) * w ≤ w := mul_le_of_le_one_left hw (le_of_lt hx1)
  have hyh : g (k + 6) * h ≤ h := mul_le_of_le_one_left hh (le_of_lt hy1)
  have hxnn : 0 ≤ g (k + 5) * w := mul_nonneg hx0 hw
  have hynn : 0 ≤ g (k + 6) * h := mul_nonneg hy0 hh
  cases clusters with
  | false =>
    simp only [mkStar, Bool.false_and, if_false, ite_false, Bool.false_eq_true]
    exact ⟨hxnn, hxw, hynn, hyh⟩
  | true =>
    by_cases hc : g (k + 7) < 0.12
    · simp only [mkStar, if_true, decide_eq_true_eq, hc, ite_true]
      refine ⟨le_max_left 0 _, max_le hw (min_le_left _ _),
              le_max_left 0 _, max_le hh (min_le_left _ _)⟩
    · simp only [mkStar, if_true, decide_eq_true_eq, hc, ite_false]
      exact ⟨hxnn, hxw, hynn, hyh⟩

/-- Length of the per-layer seeding loop. -/
theorem buildLoop_length (g : ℕ → ℚ) (w h : ℚ) (clusters : Bool) (colorBase : List ℚ)
    (layer : Layer) : ∀ (n i k : ℕ),
    (buildLoop g w h clusters colorBase layer i k n).1.length = n := by
  intro n
  induction n with
  | zero => intro i k; rfl
  | succ m ih =>
    intro i k
    simp only [buildLoop, List.length_cons, ih]

/-- Every star built by the per-layer seeding loop starts inside the canvas. -/
theorem buildLoop_pos (g : ℕ → ℚ) (w h : ℚ) (clusters : Bool) (colorBase : List ℚ)
    (layer : Layer) (hg : validRand g) (hw : 0 ≤ w) (hh : 0 ≤ h) : ∀ (n i k : ℕ),
    ∀ s ∈ (buildLoop g w h clusters colorBase layer i k n).1,
      0 ≤ s.x ∧ s.x ≤ w ∧ 0 ≤ s.y ∧ s.y ≤ h := by
  intro n
  induction n with
  | zero => intro i k s hs; simp [buildLoop] at hs
  | succ m ih =>
    intro i k s hs
    simp only [buildLoop, List.mem_cons] at hs
    rcases hs with rfl | hs
    · exact mkStar_pos g k w h clusters colorBase layer i hg hw hh
    · exact ih (i + 1) (mkStar g k w h clusters colorBase layer i).2 s hs

/-- StarsBg.buildStars produces exactly the sum of the three per-layer counts
(each Math.max(1, Math.round(count * share)) of the capped total). -/
theorem buildStars_length (g : ℕ → ℚ) (w h density : ℚ) (maxStars : ℤ) (clusters : Bool)
    (colorBase : List ℚ) (lowEnd : Bool) :
    (buildStars g w h density maxStars clusters colorBase lowEnd).length =
      layerCount (starsCount w h density maxStars lowEnd) layerFar +
      layerCount (starsCount w h density maxStars lowEnd) layerMid +
      layerCount (starsCount w h density maxStars lowEnd) layerNear := by
  simp [buildStars, starsCount, List.length_mergeSort, buildLoop_length, Nat.add_assoc]

/-- Every star of a fresh buildStars lies inside the canvas. -/
theorem buildStars_pos (g : ℕ → ℚ) (w h density : ℚ) (maxStars : ℤ) (clusters : Bool)
    (colorBase : List ℚ) (lowEnd : Bool) (hg : validRand g) (hw : 0 ≤ w) (hh : 0 ≤ h) :
    ∀ s ∈ buildStars g w h density maxStars clusters colorBase lowEnd,
      0 ≤ s.x ∧ s.x ≤ w ∧ 0 ≤ s.y ∧ s.y ≤ h := by
  intro s hs
  simp only [buildStars, List.mem_mergeSort, List.mem_append] at hs
  rcases hs with (hs | hs) | hs <;>
    exact buildLoop_pos g w h clusters colorBase _ hg hw hh _ _ _ s hs

/-- Evaluation rule for the per-layer count. -/
theorem layerCount_eq (count : ℤ) (layer : Layer) (m : ℤ)
    (hm : jsRound ((count : ℚ) * layer.density) = m) (hm1 : 1 ≤ m) :
    layerCount count layer = m.toNat := by
  simp [layerCount, hm, max_eq_right hm1]

/-- The capped star count on a 1000 by 800 area with density 7 and maxStars
280: 56 stars, reduced to 25 on a low-end device. -/
theorem starsCount_1000_800 (lowEnd : Bool) :
    starsCount 1000 800 7 280 lowEnd = if lowEnd then 25 else 56 := by
  have harea : (max 1 ((1000 : ℚ) * 800)) = 800000 := by
    rw [max_eq_right (by norm_num : (1 : ℚ) ≤ 1000 * 800)]; norm_num
  have hdes : jsRound ((800000 : ℚ) / 100000 * 7) = 56 := jsRound_eq _ 56 (by norm_num) (by norm_num)
  have hcap : min (280 : ℤ) 56 = 56 := by norm_num
  have hlow : jsRound ((56 : ℚ) * 0.45) = 25 := jsRound_eq _ 25 (by norm_num) (by norm_num)
  cases lowEnd <;> simp [starsCount, harea, hdes, hcap, hlow]

/-- The starfield built on a 1000 by 800 area with density 7 and maxStars 280
holds 28 + 20 + 8 = 56 stars, or 13 + 9 + 4 = 26 on a low-end device. -/
theorem buildStars_length_1000_800 (g : ℕ → ℚ) (clusters : Bool) (colorBase : List ℚ)
    (lowEnd : Bool) :
    (buildStars g 1000 800 7 280 clusters colorBase lowEnd).length =
      if lowEnd then 26 else 56 := by
  rw [buildStars_length, starsCount_1000_800]
  cases lowEnd
  all_goals simp only [if_true, if_false, Bool.false_eq_true, Bool.true_eq_false, ite_true, ite_false]
  · rw [layerCount_eq 56 layerFar 28 (jsRound_eq _ 28 (by norm_num [layerFar]) (by norm_num [layerFar])) (by norm_num),
        layerCount_eq 56 layerMid 20 (jsRound_eq _ 20 (by norm_num [layerMid]) (by norm_num [layerMid])) (by norm_num),
        layerCount_eq 56 layerNear 8 (jsRound_eq _ 8 (by norm_num [layerNear]) (by norm_num [layerNear])) (by norm_num)]
    rfl
  · rw [layerCount_eq 25 layerFar 13 (jsRound_eq _ 13 (by norm_num [layerFar]) (by norm_num [layerFar])) (by norm_num),
        layerCount_eq 25 layerMid 9 (jsRound_eq _ 9 (by norm_num [layerMid]) (by norm_num [layerMid])) (by norm_num),
        layerCount_eq 25 layerNear 4 (jsRound_eq _ 4 (by norm_num [layerNear]) (by norm_num [layerNear])) (by norm_num)]
    rfl

/-- The mounted StarsBg effect satisfies the scheduler/listener invariant. -/
theorem starsMount_simOk (P : Props) (g : ℕ → ℚ) (rectW rectH t0 : ℚ) :
    simOk (mount P g rectW rectH t0) := by
  constructor <;> rfl

/-- Every event dispatch preserves the StarsBg scheduler/listener invariant. -/
theorem starsApplyOp_simOk (P : Props) (s : Sim) (op : Op) (hs : simOk s) :
    simOk (applyOp P s op) := by
  obtain ⟨hp, hl⟩ := hs
  cases op with
  | frame now =>
    simp only [applyOp, fireFrame, hp, List.mem_singleton, if_true, cancelFrame, reqFrame]
    by_cases hh : s.hidden <;>
      simp_all [simOk, List.erase_cons_head, cancelFrame, reqFrame]
  | resizeEv g rectW rectH => exact ⟨hp, hl⟩
  | visibilityEv hidden => exact ⟨hp, hl⟩

/-- A whole run of events preserves the StarsBg invariant. -/
theorem starsRunOps_simOk (P : Props) (ops : List Op) (s : Sim) (hs : simOk s) :
    simOk (runOps P ops s) := by
  induction ops generalizing s with
  | nil => exact hs
  | cons op rest ih => exact ih (applyOp P s op) (starsApplyOp_simOk P s op hs)

/-- After cleanup of an invariant-satisfying StarsBg effect, no frame callback
is pending and no listener remains attached. -/
theorem starsCleanup_clears (s : Sim) (hs : simOk s) :
    (cleanup s).sched.pending = [] ∧ (cleanup s).listeners = [] := by
  obtain ⟨hp, hl⟩ := hs
  constructor
  · simp [cleanup, cancelFrame, hp, List.erase_cons_head]
  · simp [cleanup, hl, starsListeners]

/-- Forcing a frame tick after cleanup mutates nothing: the cancelled callback
never runs. -/
theorem starsFire_after_cleanup (s : Sim) (hs : simOk s) (now : ℚ) :
    fireFrame now (cleanup s) = cleanup s := by
  have hp := (starsCleanup_clears s hs).1
  simp [fireFrame, hp]

/-- The StarsBg effect starts with an empty shooting-star list. -/
theorem mount_shots (P : Props) (g : ℕ → ℚ) (rectW rectH t0 : ℚ) :
    (mount P g rectW rectH t0).shots = [] := rfl

/-- No event dispatch can ever put a shot into an empty shooting-star list:
the draw loop never calls maybeSpawnShot (or spawnShot), resize rebuilds the
list empty, and the other listeners do not touch it. -/
theorem applyOp_shots (P : Props) (s : Sim) (op : Op) (hs : s.shots = []) :
    (applyOp P s op).shots = [] := by
  cases op with
  | frame now =>
    simp only [applyOp, fireFrame]
    by_cases hmem : s.rafId ∈ s.sched.pending <;>
      by_cases hh : s.hidden <;>
        simp [hmem, hh, hs, updateShots]
  | resizeEv g rectW rectH => rfl
  | visibilityEv hidden => exact hs

end StarsBg

namespace MetaballsBg

/-- The mounted MetaballsBg effect satisfies the scheduler/listener invariant. -/
theorem metaMount_simOk (cfg : Config) (eff : Effective) (g : ℕ → ℚ) (boxW boxH : ℚ)
    (docHidden : Bool) : simOk (mount cfg eff g boxW boxH docHidden) := by
  constructor <;> rfl

/-- Every event dispatch preserves the MetaballsBg invariant. -/
theorem metaApplyOp_simOk (cfg : Config) (eff : Effective) (s : Sim) (op : Op) (hs : simOk s) :
    simOk (applyOp cfg eff s op) := by
  obtain ⟨hp, hl⟩ := hs
  cases op with
  | frame sinF cosF ts =>
    simp only [applyOp, fireFrame, hp, List.mem_singleton, if_true, cancelFrame, reqFrame]
    by_cases hh : s.docHidden <;>
      simp_all [simOk, List.erase_cons_head, cancelFrame, reqFrame]
  | resizeObserved g boxW boxH => exact ⟨hp, hl⟩
  | visibilityEv hidden => exact ⟨hp, hl⟩

/-- A whole run of events preserves the MetaballsBg invariant. -/
theorem metaRunOps_simOk (cfg : Config) (eff : Effective) (ops : List Op) (s : Sim)
    (hs : simOk s) : simOk (runOps cfg eff ops s) := by
  induction ops generalizing s with
  | nil => exact hs
  | cons op rest ih => exact ih (applyOp cfg eff s op) (metaApplyOp_simOk cfg eff s op hs)

/-- After cleanup of an invariant-satisfying MetaballsBg effect, no frame
callback is pending, no listener remains, and the observer is disconnected. -/
theorem metaCleanup_clears (s : Sim) (hs : simOk s) :
    (cleanup s).sched.pending = [] ∧ (cleanup s).listeners = [] ∧
      (cleanup s).observerConnected = false := by
  obtain ⟨hp, hl⟩ := hs
  refine ⟨?_, ?_, rfl⟩
  · simp [cleanup, cancelFrame, hp, List.erase_cons_head]
  · simp [cleanup, hl]

/-- Forcing a frame tick after cleanup mutates nothing. -/
theorem metaFire_after_cleanup (s : Sim) (hs : simOk s) (sinF cosF : ℚ → ℚ) (ts : ℚ) :
    fireFrame sinF cosF ts (cleanup s) = cleanup s := by
  have hp := (metaCleanup_clears s hs).1
  simp [fireFrame, hp]

end MetaballsBg

namespace ConstellationOverlay

/-- Any positive number of mutation callbacks within one frame leaves the
coalescing state with the flag set, exactly one queued callback, and no
rebuild executed yet. -/
theorem onMutation_iterate (n : ℕ) (hn : 1 ≤ n) :
    onMutation^[n] coalesceInit =
      { rebuildScheduled := true, pendingCallbacks := 1, rebuilds := 0 } := by
  induction n with
  | zero => omega
  | succ m ih =>
    rcases Nat.eq_zero_or_pos m with rfl | hm
    · rfl
    · rw [Function.iterate_succ_apply', ih hm]
      rfl

end ConstellationOverlay

/-! Claim theorems. -/

/-- Claim C5: with prefers-reduced-motion reported true at mount, the particle
D loader keeps its static fallback SVG in the container, never starts the
Three.js initialization (hence performs no shape sampling), and never
schedules a frame callback. -/
theorem claim_C5_theorem (we mobile : Bool) (pc : ℚ) :
    (DThreeLoader.mount we true mobile pc).rafCount = 0 ∧
    (DThreeLoader.mount we true mobile pc).initThreeStarted = false ∧
    (DThreeLoader.mount we true mobile pc).children = ["fallback-svg"] ∧
    (DThreeLoader.mount we true mobile pc).sampledTargets = 0 := by
  simp [DThreeLoader.mount]

/-- Claim C6: submitting the contact form with email "not-an-email" always
sets the email validation error (surfaced under the email field), and the
submit step returns before any POST, whatever the other field values. -/
theorem claim_C6_theorem (nm subj msg hny : String) :
    (Contact.validate
      { name := nm, email := "not-an-email", subject := subj,
        message := msg, honey := hny }).email = some "Please enter a valid email" ∧
    ∀ p, Contact.submitStep
      { name := nm, email := "not-an-email", subject := subj,
        message := msg, honey := hny } ≠ Contact.SubmitAction.post p := by
  have hemail : (Contact.validate
      { name := nm, email := "not-an-email", subject := subj,
        message := msg, honey := hny }).email = some "Please enter a valid email" := rfl
  refine ⟨hemail, ?_⟩
  intro p hp
  have hhe : Contact.hasErrors (Contact.validate
      { name := nm, email := "not-an-email", subject := subj,
        message := msg, honey := hny }) = true := by
    simp [Contact.hasErrors, hemail]
  simp [Contact.submitStep, hhe] at hp

/-- Claim C7: any positive number of DOM mutations within one animation frame
results in exactly one rebuild executed at the next frame boundary, with the
callback queue drained and the coalescing flag cleared. -/
theorem claim_C7_theorem (n : ℕ) (hn : 1 ≤ n) :
    (ConstellationOverlay.frameBoundary
      (ConstellationOverlay.onMutation^[n] ConstellationOverlay.coalesceInit)).rebuilds = 1 ∧
    (ConstellationOverlay.frameBoundary
      (ConstellationOverlay.onMutation^[n] ConstellationOverlay.coalesceInit)).pendingCallbacks = 0 ∧
    (ConstellationOverlay.frameBoundary
      (ConstellationOverlay.onMutation^[n] ConstellationOverlay.coalesceInit)).rebuildScheduled
      = false := by
  rw [ConstellationOverlay.onMutation_iterate n hn]
  simp [ConstellationOverlay.frameBoundary]

/-- Witness for claim C7 at 50 rapid consecutive mutations. -/
theorem claim_C7_witness :
    (ConstellationOverlay.frameBoundary
      (ConstellationOverlay.onMutation^[50] ConstellationOverlay.coalesceInit)).rebuilds = 1 ∧
    (ConstellationOverlay.frameBoundary
      (ConstellationOverlay.onMutation^[50] ConstellationOverlay.coalesceInit)).pendingCallbacks = 0 ∧
    (ConstellationOverlay.frameBoundary
      (ConstellationOverlay.onMutation^[50] ConstellationOverlay.coalesceInit)).rebuildScheduled
      = false :=
  claim_C7_theorem 50 (by norm_num)

/-- Claim C10: a non-empty honeypot always yields the Spam detected validation
error and blocks the POST; and whenever the submit step does POST, the payload
is exactly the four visible fields, never the honeypot. -/
theorem claim_C10_theorem :
    (∀ f : Contact.Form, f.honey ≠ "" →
      (Contact.validate f).honey = some "Spam detected" ∧
      ∀ p, Contact.submitStep f ≠ Contact.SubmitAction.post p) ∧
    (∀ (f : Contact.Form) (p : Contact.Payload),
      Contact.submitStep f = Contact.SubmitAction.post p →
      p = { name := f.name, email := f.email, subject := f.subject, message := f.message }) := by
  constructor
  · intro f hf
    have hhoney : (Contact.validate f).honey = some "Spam detected" := by
      simp [Contact.validate, hf]
    refine ⟨hhoney, ?_⟩
    intro p hp
    have hhe : Contact.hasErrors (Contact.validate f) = true := by
      simp [Contact.hasErrors, hhoney]
    simp [Contact.submitStep, hhe] at hp
  · intro f p hp
    by_cases hhe : Contact.hasErrors (Contact.validate f) = true
    · simp [Contact.submitStep, hhe] at hp
    · simp only [Contact.submitStep, hhe, if_false, Bool.not_eq_true] at hp
      rw [if_neg] at hp
      · cases hp
        rfl
      · simp [hhe]

/-- Witness for claim C10: the spam form is flagged, and the clean form's
payload is exactly its four visible fields. -/
theorem claim_C10_witness :
    (Contact.validate formSpam).honey = some "Spam detected" ∧
    payloadClean = { name := formClean.name, email := formClean.email,
                     subject := formClean.subject, message := formClean.message } :=
  ⟨(claim_C10_theorem.1 formSpam (by decide)).1,
   claim_C10_theorem.2 formClean payloadClean (by decide)⟩

/-- Counterexample to claim C4 as stated: with configuration count 6 and
autoReduce on, a prefers-reduced-motion device makes the seed produce 2 live
blobs, not 6, on a 1000 by 800 container. -/
theorem claim_C4_counterexample :
    cfgReducedEx.count = 6 ∧
    (MetaballsBg.seed zeroRand (MetaballsBg.effective cfgReducedEx devReducedEx).countToUse
      1000 800 cfgReducedEx.minR cfgReducedEx.maxR
      (MetaballsBg.effective cfgReducedEx devReducedEx).speedToUse).length ≠ 6 := by
  constructor
  · rfl
  · rw [MetaballsBg.seed_length]
    have hfloor : (⌊(6 : ℚ) * 0.35⌋ : ℤ) = 2 := by norm_num
    simp [MetaballsBg.effective, cfgReducedEx, devReducedEx, hfloor]

/-- Claim C4 amended: after any seed or reseed (a resize triggers the same
seed with new dimensions), the number of live blobs equals exactly the
effective count countToUse; countToUse equals the configured count N whenever
autoReduce is off (the device-adaptive reduction may lower it otherwise). -/
theorem claim_C4_amended (cfg : MetaballsBg.Config) (d : MetaballsBg.Device)
    (g : ℕ → ℚ) (w h : ℚ) :
    (MetaballsBg.seed g (MetaballsBg.effective cfg d).countToUse w h cfg.minR cfg.maxR
      (MetaballsBg.effective cfg d).speedToUse).length
      = (MetaballsBg.effective cfg d).countToUse ∧
    (cfg.autoReduce = false → (MetaballsBg.effective cfg d).countToUse = cfg.count) := by
  constructor
  · exact MetaballsBg.seed_length g _ w h cfg.minR cfg.maxR _
  · intro hred
    simp [MetaballsBg.effective, hred]

/-- Witness for claim C4 (amended) at the default configuration with
autoReduce off on a 1000 by 800 container. -/
theorem claim_C4_witness :
    (MetaballsBg.seed zeroRand (MetaballsBg.effective cfgPlain devPlain).countToUse
      1000 800 cfgPlain.minR cfgPlain.maxR
      (MetaballsBg.effective cfgPlain devPlain).speedToUse).length
      = (MetaballsBg.effective cfgPlain devPlain).countToUse ∧
    (MetaballsBg.effective cfgPlain devPlain).countToUse = 6 :=
  ⟨(claim_C4_amended cfgPlain devPlain zeroRand 1000 800).1,
   (claim_C4_amended cfgPlain devPlain zeroRand 1000 800).2 rfl⟩

/-- Claim C9: seeding the starfield with density 7 and maxStars 280 on a
1000 by 800 area yields a star count in (0, 280], and every star starts
inside [0, 1000] by [0, 800] — for any valid Math.random stream, with or
without clusters, on high- or low-end devices. -/
theorem claim_C9_theorem (g : ℕ → ℚ) (clusters : Bool) (colorBase : List ℚ)
    (lowEnd : Bool) (hg : validRand g) :
    0 < (StarsBg.buildStars g 1000 800 7 280 clusters colorBase lowEnd).length ∧
    (StarsBg.buildStars g 1000 800 7 280 clusters colorBase lowEnd).length ≤ 280 ∧
    ∀ s ∈ StarsBg.buildStars g 1000 800 7 280 clusters colorBase lowEnd,
      0 ≤ s.x ∧ s.x ≤ 1000 ∧ 0 ≤ s.y ∧ s.y ≤ 800 := by
  refine ⟨?_, ?_, ?_⟩
  · rw [StarsBg.buildStars_length_1000_800]
    cases lowEnd <;> norm_num
  · rw [StarsBg.buildStars_length_1000_800]
    cases lowEnd <;> norm_num
  · exact StarsBg.buildStars_pos g 1000 800 7 280 clusters colorBase lowEnd hg
      (by norm_num) (by norm_num)

/-- Witness for claim C9 with the all-zeros stream, the default colorBase and
a regular device: the star count lies in (0, 280]. -/
theorem claim_C9_witness :
    0 < (StarsBg.buildStars zeroRand 1000 800 7 280 true starColorBase false).length ∧
    (StarsBg.buildStars zeroRand 1000 800 7 280 true starColorBase false).length ≤ 280 :=
  ⟨(claim_C9_theorem zeroRand true starColorBase false zeroRand_valid).1,
   (claim_C9_theorem zeroRand true starColorBase false zeroRand_valid).2.1⟩

/-- cornerStar is exactly the near-layer star StarsBg.mkStar builds on a
100 by 100 canvas when every Math.random() call returns 0. -/
theorem cornerStar_seedable :
    (StarsBg.mkStar zeroRand 0 100 100 true starColorBase StarsBg.layerNear 0).1 = cornerStar := by
  have hid : (⌊(0 : ℚ) * 1000000⌋ : ℤ) = 0 := by norm_num
  simp only [StarsBg.mkStar, randIn, zeroRand, starColorBase, StarsBg.layerNear,
    List.enum, List.enumFrom, List.map, hid]
  norm_num [cornerStar, StarsBg.Star.mk.injEq]
  refine ⟨by decide, ?_, ?_, ?_⟩
  · rw [jsRound_eq 237 237 (by norm_num) (by norm_num)]
    decide
  · rw [jsRound_eq ((1937 : ℚ) / 10) 194 (by norm_num) (by norm_num)]
    decide
  · rw [jsRound_eq ((1637 : ℚ) / 10) 164 (by norm_num) (by norm_num)]
    decide

/-- Along the first 83 frames of 40 ms, cornerStar drifts left by 0.24 px per
frame without wrapping. -/
theorem cornerStar_traj : ∀ n, n ≤ 83 →
    ((StarsBg.moveStar 100 100 40)^[n] cornerStar).x = -(6 / 25 : ℚ) * n := by
  intro n
  induction n with
  | zero => intro _; norm_num [cornerStar]
  | succ m ih =>
    intro hm
    have hx := ih (by omega)
    have hcast : ((m : ℚ)) ≤ 82 := by exact_mod_cast (by omega : m ≤ 82)
    rw [Function.iterate_succ_apply', StarsBg.moveStar_x, hx, StarsBg.iterate_vx,
        show cornerStar.vx = -(3 / 500 : ℚ) by norm_num [cornerStar]]
    rw [wrapSnap_id]
    · push_cast
      ring
    · intro hlt
      nlinarith
    · intro hgt
      nlinarith

/-- Counterexample to claim C1 as stated: after 84 draw frames the seedable
star cornerStar (radius 0.63) sits at x = 120 on a 100 px wide canvas — far
outside [0 - radius, width + radius], because the starfield wrap uses a fixed
20 px margin, not the star's radius. -/
theorem claim_C1_counterexample :
    ¬(0 - cornerStar.r ≤ ((StarsBg.moveStar 100 100 40)^[84] cornerStar).x ∧
      ((StarsBg.moveStar 100 100 40)^[84] cornerStar).x ≤ 100 + cornerStar.r) := by
  have h83 := cornerStar_traj 83 (le_refl 83)
  have hx : ((StarsBg.moveStar 100 100 40)^[84] cornerStar).x = 120 := by
    rw [show (84 : ℕ) = 83 + 1 from rfl, Function.iterate_succ_apply', StarsBg.moveStar_x, h83,
        StarsBg.iterate_vx, show cornerStar.vx = -(3 / 500 : ℚ) by norm_num [cornerStar]]
    norm_num [wrapSnap]
  rw [hx]
  norm_num [cornerStar]

/-- Claim C1 amended: metaball blobs do satisfy the claimed radius band — for
any run from seeding, -r <= x <= w + r (and likewise for y) — while starfield
stars satisfy the band with the fixed 20 px wrap margin in place of the
radius: -20 <= x <= w + 20 (and likewise for y), so no particle is ever
permanently lost. -/
theorem claim_C1_amended :
    (∀ (sinF cosF : ℚ → ℚ) (g : ℕ → ℚ) (w h minR maxR sp : ℚ) (cnt : ℕ) (dts : List ℚ),
      validRand g → 0 ≤ w → 0 ≤ h → 0 ≤ minR → minR ≤ maxR →
      ∀ b ∈ MetaballsBg.runFrames sinF cosF w h dts (MetaballsBg.seed g cnt w h minR maxR sp),
        -b.r ≤ b.x ∧ b.x ≤ w + b.r ∧ -b.r ≤ b.y ∧ b.y ≤ h + b.r) ∧
    (∀ (g : ℕ → ℚ) (w h density : ℚ) (maxStars : ℤ) (clusters : Bool) (colorBase : List ℚ)
      (lowEnd : Bool) (dts : List ℚ),
      validRand g → 0 ≤ w → 0 ≤ h →
      ∀ s ∈ StarsBg.runStarFrames w h dts
          (StarsBg.buildStars g w h density maxStars clusters colorBase lowEnd),
        -20 ≤ s.x ∧ s.x ≤ w + 20 ∧ -20 ≤ s.y ∧ s.y ≤ h + 20) := by
  constructor
  · intro sinF cosF g w h minR maxR sp cnt dts hg hw hh hm hmm b hb
    have hok := MetaballsBg.runFrames_ok sinF cosF w h hw hh dts _
      (MetaballsBg.seed_ok g cnt w h minR maxR sp hg hw hh hm hmm) b hb
    exact ⟨hok.2.1, hok.2.2.1, hok.2.2.2.1, hok.2.2.2.2⟩
  · intro g w h density maxStars clusters colorBase lowEnd dts hg hw hh s hs
    have hseed : ∀ s0 ∈ StarsBg.buildStars g w h density maxStars clusters colorBase lowEnd,
        StarsBg.starInBand w h s0 := by
      intro s0 hs0
      obtain ⟨h1, h2, h3, h4⟩ :=
        StarsBg.buildStars_pos g w h density maxStars clusters colorBase lowEnd hg hw hh s0 hs0
      exact ⟨by linarith, by linarith, by linarith, by linarith⟩
    exact StarsBg.runStarFrames_inBand w h hw hh dts _ hseed s hs

/-- Witness for claim C1 (amended): zero frames on a 100 by 100 container,
the first seeded blob and the first seeded far-layer star, with the all-zeros
stream. -/
theorem claim_C1_witness :
    (-(MetaballsBg.mkBlob zeroRand 0 100 100 64 180 0.14).r ≤
        (MetaballsBg.mkBlob zeroRand 0 100 100 64 180 0.14).x ∧
      (MetaballsBg.mkBlob zeroRand 0 100 100 64 180 0.14).x ≤
        100 + (MetaballsBg.mkBlob zeroRand 0 100 100 64 180 0.14).r ∧
      -(MetaballsBg.mkBlob zeroRand 0 100 100 64 180 0.14).r ≤
        (MetaballsBg.mkBlob zeroRand 0 100 100 64 180 0.14).y ∧
      (MetaballsBg.mkBlob zeroRand 0 100 100 64 180 0.14).y ≤
        100 + (MetaballsBg.mkBlob zeroRand 0 100 100 64 180 0.14).r) ∧
    (-20 ≤ (StarsBg.mkStar zeroRand 0 100 100 true starColorBase StarsBg.layerFar 0).1.x ∧
      (StarsBg.mkStar zeroRand 0 100 100 true starColorBase StarsBg.layerFar 0).1.x ≤ 100 + 20 ∧
      -20 ≤ (StarsBg.mkStar zeroRand 0 100 100 true starColorBase StarsBg.layerFar 0).1.y ∧
      (StarsBg.mkStar zeroRand 0 100 100 true starColorBase StarsBg.layerFar 0).1.y ≤ 100 + 20) :=
  ⟨claim_C1_amended.1 (fun _ => 0) (fun _ => 0) zeroRand 100 100 64 180 0.14 1 []
      zeroRand_valid (by norm_num) (by norm_num) (by norm_num) (by norm_num)
      (MetaballsBg.mkBlob zeroRand 0 100 100 64 180 0.14)
      (by simp [MetaballsBg.runFrames, MetaballsBg.seed]),
   claim_C1_amended.2 zeroRand 100 100 7 280 true starColorBase false []
      zeroRand_valid (by norm_num) (by norm_num)
      (StarsBg.mkStar zeroRand 0 100 100 true starColorBase StarsBg.layerFar 0).1
      (by
        simp only [StarsBg.runStarFrames]
        have hc : StarsBg.starsCount 100 100 7 280 false = 1 := by
          have harea : (max 1 ((100 : ℚ) * 100)) = 10000 := by
            rw [max_eq_right (by norm_num : (1 : ℚ) ≤ 100 * 100)]; norm_num
          have hdes : jsRound ((10000 : ℚ) / 100000 * 7) = 1 :=
            jsRound_eq _ 1 (by norm_num) (by norm_num)
          simp [StarsBg.starsCount, harea, hdes]
        have hlc : StarsBg.layerCount 1 StarsBg.layerFar = 1 :=
          StarsBg.layerCount_eq 1 StarsBg.layerFar 1
            (jsRound_eq _ 1 (by norm_num [StarsBg.layerFar]) (by norm_num [StarsBg.layerFar]))
            (by norm_num)
        simp only [StarsBg.buildStars, hc, hlc, List.mem_mergeSort, List.mem_append]
        left
        left
        simp [StarsBg.buildLoop])⟩

/-- Counterexample to claim C2 as stated: two stars that overshoot the right
wrap boundary by different amounts both re-enter at exactly x = -20 — the
overshoot is discarded (a snap to a fixed boundary coordinate), and the
result differs from the exact modulo wrap onto [-20, 120) demanded by the
claim. -/
theorem claim_C2_counterexample :
    (StarsBg.moveStar 100 100 40 starSnapA).x = -20 ∧
    (StarsBg.moveStar 100 100 40 starSnapB).x = -20 ∧
    starSnapA.x + starSnapA.vx * 40 ≠ starSnapB.x + starSnapB.vx * 40 ∧
    (StarsBg.moveStar 100 100 40 starSnapA).x ≠
      specModuloWrap (-20) 120 (starSnapA.x + starSnapA.vx * 40) := by
  have ha : (StarsBg.moveStar 100 100 40 starSnapA).x = -20 := by
    rw [StarsBg.moveStar_x]
    norm_num [starSnapA, cornerStar, wrapSnap]
  have hb : (StarsBg.moveStar 100 100 40 starSnapB).x = -20 := by
    rw [StarsBg.moveStar_x]
    norm_num [starSnapB, cornerStar, wrapSnap]
  have hspec : specModuloWrap (-20) 120 (starSnapA.x + starSnapA.vx * 40) = -(993 / 50 : ℚ) := by
    norm_num [specModuloWrap, starSnapA, cornerStar]
  refine ⟨ha, hb, ?_, ?_⟩
  · norm_num [starSnapA, starSnapB, cornerStar]
  · rw [ha, hspec]
    norm_num

/-- Claim C2 amended: a star leaving the 20 px band around the canvas is
repositioned on the opposite edge at the fixed boundary coordinate (w + 20
when exiting left of -20, and -20 when exiting right of w + 20; likewise for
y) — a snap to the opposite boundary that discards the overshoot, not an
exact modulo wrap and not a clamp to the edge it left. -/
theorem claim_C2_amended (w h dt : ℚ) (s : StarsBg.Star) :
    (StarsBg.moveStar w h dt s).x =
      (if s.x + s.vx * dt < -20 then w + 20
       else if s.x + s.vx * dt > w + 20 then -20 else s.x + s.vx * dt) ∧
    (StarsBg.moveStar w h dt s).y =
      (if s.y + s.vy * dt < -20 then h + 20
       else if s.y + s.vy * dt > h + 20 then -20 else s.y + s.vy * dt) := by
  constructor
  · rw [StarsBg.moveStar_x]
    simp only [wrapSnap]
    split_ifs <;> first | rfl | linarith
  · rw [StarsBg.moveStar_y]
    simp only [wrapSnap]
    split_ifs <;> first | rfl | linarith

/-- Claim C3, the code as it stands: however the mounted starfield effect is
driven (frames, resizes, visibility flips), its shooting-star list stays
empty forever — the draw loop never invokes maybeSpawnShot, which is dead
code, so no shooting star is ever spawned no matter the shootingFrequency. -/
theorem claim_C3_theorem (P : StarsBg.Props) (g : ℕ → ℚ) (rectW rectH t0 : ℚ)
    (ops : List StarsBg.Op) :
    (StarsBg.runOps P ops (StarsBg.mount P g rectW rectH t0)).shots = [] := by
  have hrun : ∀ (ops0 : List StarsBg.Op) (s : StarsBg.Sim), s.shots = [] →
      (StarsBg.runOps P ops0 s).shots = [] := by
    intro ops0
    induction ops0 with
    | nil => intro s hs; exact hs
    | cons op rest ih => intro s hs; exact ih _ (StarsBg.applyOp_shots P s op hs)
  exact hrun ops _ (StarsBg.mount_shots P g rectW rectH t0)

/-- Claim C8: after teardown of either effect (StarsBg or MetaballsBg), run
after any sequence of events since mount, zero frame callbacks remain
pending, zero of the listeners the effect registered remain attached (and the
metaball resize observer is disconnected), and a subsequently forced frame
tick leaves the state completely unchanged. -/
theorem claim_C8_theorem :
    (∀ (P : StarsBg.Props) (g : ℕ → ℚ) (rectW rectH t0 : ℚ) (ops : List StarsBg.Op) (now : ℚ),
      (StarsBg.cleanup (StarsBg.runOps P ops (StarsBg.mount P g rectW rectH t0))).sched.pending
        = [] ∧
      (StarsBg.cleanup (StarsBg.runOps P ops (StarsBg.mount P g rectW rectH t0))).listeners = [] ∧
      StarsBg.fireFrame now (StarsBg.cleanup (StarsBg.runOps P ops (StarsBg.mount P g rectW rectH t0)))
        = StarsBg.cleanup (StarsBg.runOps P ops (StarsBg.mount P g rectW rectH t0))) ∧
    (∀ (cfg : MetaballsBg.Config) (eff : MetaballsBg.Effective) (g : ℕ → ℚ) (boxW boxH : ℚ)
      (dh : Bool) (ops : List MetaballsBg.Op) (sinF cosF : ℚ → ℚ) (ts : ℚ),
      (MetaballsBg.cleanup
        (MetaballsBg.runOps cfg eff ops (MetaballsBg.mount cfg eff g boxW boxH dh))).sched.pending
        = [] ∧
      (MetaballsBg.cleanup
        (MetaballsBg.runOps cfg eff ops (MetaballsBg.mount cfg eff g boxW boxH dh))).listeners
        = [] ∧
      (MetaballsBg.cleanup
        (MetaballsBg.runOps cfg eff ops
          (MetaballsBg.mount cfg eff g boxW boxH dh))).observerConnected = false ∧
      MetaballsBg.fireFrame sinF cosF ts
        (MetaballsBg.cleanup (MetaballsBg.runOps cfg eff ops (MetaballsBg.mount cfg eff g boxW boxH dh)))
        = MetaballsBg.cleanup
            (MetaballsBg.runOps cfg eff ops (MetaballsBg.mount cfg eff g boxW boxH dh))) := by
  constructor
  · intro P g rectW rectH t0 ops now
    have hok := StarsBg.starsRunOps_simOk P ops _ (StarsBg.starsMount_simOk P g rectW rectH t0)
    exact ⟨(StarsBg.starsCleanup_clears _ hok).1, (StarsBg.starsCleanup_clears _ hok).2,
           StarsBg.starsFire_after_cleanup _ hok now⟩
  · intro cfg eff g boxW boxH dh ops sinF cosF ts
    have hok := MetaballsBg.metaRunOps_simOk cfg eff ops _
      (MetaballsBg.metaMount_simOk cfg eff g boxW boxH dh)
    exact ⟨(MetaballsBg.metaCleanup_clears _ hok).1, (MetaballsBg.metaCleanup_clears _ hok).2.1,
           (MetaballsBg.metaCleanup_clears _ hok).2.2,
           MetaballsBg.metaFire_after_cleanup _ hok sinF cosF ts⟩
